import Mathlib

/-!
Verification of the AgroUnify offline crop-doctor diagnosis pipeline
(`ai/services/offline_crop_doctor.py`), shallowly embedded in Lean 4.

Modelling conventions:
* Python floats are modelled as `ℚ` (all constants in the source are short
  decimals, compared and combined by field arithmetic).
* `cv2.imread` either fails (`ImageSrc.undecodable`, the Python `None`) or
  yields a decoded image; the numeric feature records the source derives from
  a decoded image (`_extract_crop_features`, `_extract_disease_features`, and
  the HSV pixel counts of `_calculate_visual_severity`) are carried directly
  on the decoded constructor.
* Each fallible external collaborator (crop analyzer, disease detector, yield
  predictor, treatment engine) is an `Option` in `Env`: `none` models both an
  absent service (`self.x = None`) and a call that raised (caught by the
  source's `try/except`, contributing nothing).
* `list.sort(key=lambda x: x[1], reverse=True)` is Python's stable sort; it is
  embedded as the stable descending insertion sort `sortCandsDesc`.
* The SQLite table `analysis_cache` (`image_hash` UNIQUE, autoincrement `id`)
  is a list of rows plus the next autoincrement id; `INSERT OR REPLACE`
  deletes the conflicting row and inserts a fresh row with a new id.
-/

/-- Features extracted by `_extract_crop_features` from a decodable image. -/
structure CropFeatures where
  dominant_hue : ℚ
  avg_saturation : ℚ
  avg_brightness : ℚ
  texture_variance : ℚ
  edge_density : ℚ
deriving DecidableEq

/-- Features extracted by `_extract_disease_features` from a decodable image. -/
structure DiseaseFeatures where
  num_spots : ℕ
  avg_spot_size : ℚ
  total_affected_area : ℚ
  yellow_pixels : ℕ
  brown_pixels : ℕ
  white_pixels : ℕ
  texture_contrast : ℚ
  homogeneity : ℚ
deriving DecidableEq

/-- HSV pixel counts used by `_calculate_visual_severity`: total pixel count,
pixels with value > 180 (pale), pixels with hue in [10,35] and saturation > 50
(brown/yellow), and pixels with value < 80 (dark). -/
structure VisualPixels where
  total_pixels : ℕ
  pale_pixels : ℕ
  brown_yellow_pixels : ℕ
  dark_pixels : ℕ
deriving DecidableEq

/-- Result of `cv2.imread`: `undecodable` is Python `None`; a decoded image
carries the feature records the source computes from it. -/
inductive ImageSrc where
  | undecodable : ImageSrc
  | decoded (cf : CropFeatures) (df : DiseaseFeatures) (vp : VisualPixels) : ImageSrc
deriving DecidableEq

/-- What a successful `self.disease_detector.analyze_image` call yields:
`diagnosis.primary_disease`, `diagnosis.confidence`, `diagnosis.severity_level`
(dictionary defaults `'Healthy'`, `0.5`, `'moderate'` folded in). -/
structure DetectorDiagnosis where
  primary_disease : String
  confidence : ℚ
  severity_level : String
deriving DecidableEq

/-- One entry of a treatment plan's `chemical_treatments` list. -/
structure ChemicalTreatment where
  product_name : String
  application_rate : String
deriving DecidableEq

/-- Result of `self.treatment_engine.get_comprehensive_treatment_plan`. -/
structure TreatmentPlan where
  chemical_treatments : List ChemicalTreatment
deriving DecidableEq

/-- The `OfflineCropDoctor` service attributes set by `_initialize_services`:
each fallible collaborator is `none` when absent or when its call raises. -/
structure Env where
  crop_analyzer : Option (String × ℚ)
  disease_detector : Option DetectorDiagnosis
  yield_predictor : Option (ℚ × ℚ)
  treatment_engine : Option TreatmentPlan
  recommendation_service : Option Unit
  models_loaded : ℕ
deriving DecidableEq

/-- `CropAnalysisResult` dataclass. -/
structure CropAnalysisResult where
  crop_type : String
  confidence : ℚ
deriving DecidableEq

/-- `DiseaseAnalysisResult` dataclass. -/
structure DiseaseAnalysisResult where
  disease : String
  confidence : ℚ
  severity_percent : ℚ
deriving DecidableEq

/-- `RecommendationResult` dataclass. -/
structure RecommendationResult where
  fertilizer_recommendation : String
  fertilizer_dose : String
  pesticide_recommendation : String
  pesticide_dose : String
deriving DecidableEq

/-- `SmartRecommendations` dataclass. -/
structure SmartRecommendations where
  irrigation_advice : String
  prevention_strategies : List String
  growth_stage_tips : List String
deriving DecidableEq

/-- `YieldPredictionResult` dataclass. -/
structure YieldPredictionResult where
  predicted_yield : ℚ
  confidence : ℚ
deriving DecidableEq

/-- Weather snapshot fields read by `_get_irrigation_advice`
(dictionary defaults 25 / 60 / 0 folded into the fields). -/
structure WeatherData where
  temperature : ℚ
  humidity : ℚ
  rainfall : ℚ
deriving DecidableEq

/-- `CropDoctorInput` dataclass; `image` is what `cv2.imread(image_path)`
yields and `image_hash` is the md5 of the raw file bytes. -/
structure CropDoctorInput where
  image : ImageSrc
  image_hash : String
  soil_type : Option String
  weather_data : Option WeatherData
  growth_stage : Option String
  historical_yield : Option (List ℚ)
  location : Option (ℚ × ℚ)
deriving DecidableEq

/-- Stable descending insertion of one candidate into a list already sorted by
descending confidence: the new element goes before the first element whose
confidence it meets or exceeds. -/
def insertCand (x : String × ℚ) : List (String × ℚ) → List (String × ℚ)
  | [] => [x]
  | y :: ys => if y.2 ≤ x.2 then x :: y :: ys else y :: insertCand x ys

/-- Stable sort by descending confidence, the embedding of Python's
`candidates.sort(key=lambda x: x[1], reverse=True)`. -/
def sortCandsDesc : List (String × ℚ) → List (String × ℚ)
  | [] => []
  | x :: xs => insertCand x (sortCandsDesc xs)

/-- Python's binary `min` on rationals, written out so that the kernel can
evaluate it (provably equal to `min`, see `qmin_eq`). -/
def qmin (a b : ℚ) : ℚ := if a ≤ b then a else b

/-- Python's binary `max` on rationals, written out so that the kernel can
evaluate it (provably equal to `max`, see `qmax_eq`). -/
def qmax (a b : ℚ) : ℚ := if a ≤ b then b else a

theorem qmin_eq (a b : ℚ) : qmin a b = min a b := by
  rw [qmin, min_def]

theorem qmax_eq (a b : ℚ) : qmax a b = max a b := by
  rw [qmax, max_def]

/-- `_identify_crop_by_color`. -/
def identify_crop_by_color (f : CropFeatures) : Option (String × ℚ) :=
  if 30 ≤ f.dominant_hue ∧ f.dominant_hue ≤ 60 ∧ 100 < f.avg_saturation then
    some ("Rice", 0.7)
  else if 60 ≤ f.dominant_hue ∧ f.dominant_hue ≤ 90 ∧ 150 < f.avg_brightness then
    some ("Wheat", 0.6)
  else if 20 ≤ f.dominant_hue ∧ f.dominant_hue ≤ 40 ∧ 120 < f.avg_saturation then
    some ("Cotton", 0.65)
  else if 80 ≤ f.dominant_hue ∧ f.dominant_hue ≤ 110 ∧ 140 < f.avg_brightness then
    some ("Maize", 0.75)
  else none

/-- `_identify_crop_by_shape`. -/
def identify_crop_by_shape (f : CropFeatures) : Option (String × ℚ) :=
  if 500 < f.texture_variance ∧ 0.05 < f.edge_density then
    some ("Rice", 0.6)
  else if f.texture_variance < 300 ∧ f.edge_density < 0.03 then
    some ("Wheat", 0.55)
  else if 300 ≤ f.texture_variance ∧ f.texture_variance ≤ 600 ∧
      0.03 ≤ f.edge_density ∧ f.edge_density ≤ 0.07 then
    some ("Cotton", 0.6)
  else none

/-- The pooled crop candidates of `_identify_crop`, in source append order:
color heuristic, then shape heuristic, then the `crop_analyzer` fallback. -/
def cropCandidates (env : Env) (cf : CropFeatures) : List (String × ℚ) :=
  (identify_crop_by_color cf).toList ++ (identify_crop_by_shape cf).toList ++
    env.crop_analyzer.toList

/-- `_identify_crop`: `cv2.imread` failure yields ("Unknown", 0.0); otherwise
pool the candidates, stable-sort by descending confidence, take the head, and
apply the 0.2 confidence threshold (below it: "Unknown" with confidence 0.0). -/
def identify_crop (env : Env) (img : ImageSrc) : CropAnalysisResult :=
  match img with
  | .undecodable => ⟨"Unknown", 0⟩
  | .decoded cf _ _ =>
    match sortCandsDesc (cropCandidates env cf) with
    | [] => ⟨"Unknown", 0⟩
    | (best_crop, best_confidence) :: _ =>
      if best_confidence < 0.2 then ⟨"Unknown", 0⟩
      else ⟨best_crop, best_confidence⟩

/-- `_identify_disease_by_features` (the `crop_type` argument is unused in the
source as well). -/
def identify_disease_by_features (f : DiseaseFeatures) (crop_type : String) :
    Option (String × ℚ) :=
  if 1000 < f.white_pixels ∧ 50 < f.texture_contrast then
    some ("Powdery Mildew", 0.8)
  else if 2000 < f.yellow_pixels ∧ 10 < f.num_spots then
    some ("Early Blight", 0.75)
  else if 1500 < f.brown_pixels ∧ 5 < f.num_spots then
    some ("Late Blight", 0.85)
  else if 20 < f.num_spots ∧ f.texture_contrast < 30 then
    some ("Bacterial Spot", 0.7)
  else none

/-- `_identify_disease_by_visual_analysis`. -/
def identify_disease_by_visual_analysis (f : DiseaseFeatures) (crop_type : String) :
    Option (String × ℚ) :=
  if 5000 < f.total_affected_area then
    some ("Late Blight", 0.8)
  else if 15 < f.num_spots then
    some ("Early Blight", 0.7)
  else if 2000 < f.total_affected_area ∧ f.num_spots < 10 then
    some ("Bacterial Spot", 0.65)
  else none

/-- The pooled disease candidates of `_detect_disease`, in source append order:
model-based detector, then feature heuristic, then visual heuristic. -/
def diseaseCandidates (env : Env) (df : DiseaseFeatures) (crop_type : String) :
    List (String × ℚ) :=
  (env.disease_detector.map fun d => (d.primary_disease, d.confidence)).toList ++
    (identify_disease_by_features df crop_type).toList ++
    (identify_disease_by_visual_analysis df crop_type).toList

/-- `_detect_disease`: decode failure yields ("Unknown", 0.0, 0.0); an empty
pool yields ("Healthy", 0.9); otherwise take the stable-sorted head and apply
the 0.3 threshold, substituting "Healthy" with confidence
`max(best_confidence, 0.8)` below it. -/
def detect_disease (env : Env) (img : ImageSrc) (crop_type : String) :
    DiseaseAnalysisResult :=
  match img with
  | .undecodable => ⟨"Unknown", 0, 0⟩
  | .decoded _ df _ =>
    match sortCandsDesc (diseaseCandidates env df crop_type) with
    | [] => ⟨"Healthy", 0.9, 0⟩
    | (best_disease, best_confidence) :: _ =>
      if best_confidence < 0.3 then ⟨"Healthy", qmax best_confidence 0.8, 0⟩
      else ⟨best_disease, best_confidence, 0⟩

/-- The `severity_map` lookup in `_assess_severity`
(default 50.0 for an unrecognised level). -/
def severityLevelScore (level : String) : ℚ :=
  if level = "mild" then 25
  else if level = "moderate" then 50
  else if level = "severe" then 75
  else if level = "epidemic" then 95
  else 50

/-- `_calculate_severity_from_features` (the `disease` argument is unused in
the source as well). -/
def calculate_severity_from_features (f : DiseaseFeatures) (disease : String) : ℚ :=
  let area_severity := qmin 100 ((f.total_affected_area / 10000) * 100)
  let spot_severity := qmin 100 ((f.num_spots : ℚ) * 3)
  let texture_severity := qmin 100 ((f.texture_contrast / 50) * 100)
  area_severity * 0.5 + spot_severity * 0.3 + texture_severity * 0.2

/-- `_calculate_visual_severity`: count the disease-specific pixels, take their
fraction of all pixels as a percentage, amplify by 2 and cap at 100. -/
def calculate_visual_severity (vp : VisualPixels) (disease : String) : ℚ :=
  let disease_pixels : ℕ :=
    if disease = "Powdery Mildew" then vp.pale_pixels
    else if disease = "Early Blight" ∨ disease = "Late Blight" then vp.brown_yellow_pixels
    else if disease = "Bacterial Spot" then vp.dark_pixels
    else 0
  let severity := ((disease_pixels : ℚ) / (vp.total_pixels : ℚ)) * 100
  qmin 100 (severity * 2)

/-- `_adjust_severity_by_disease`: disease-specific multiplier
(default 1.0), applied to the averaged severity. -/
def adjust_severity_by_disease (severity : ℚ) (disease : String) : ℚ :=
  let multiplier : ℚ :=
    if disease = "Powdery Mildew" then 1.2
    else if disease = "Early Blight" then 1
    else if disease = "Late Blight" then 1.3
    else if disease = "Bacterial Spot" then 0.9
    else if disease = "Healthy" then 0
    else 1
  severity * multiplier

/-- The contribution of the model-based detector to `severity_scores` in
`_assess_severity` (one score when the detector is available). -/
def detectorSeverityScores (env : Env) : List ℚ :=
  (env.disease_detector.map fun d => severityLevelScore d.severity_level).toList

/-- The contribution of `_calculate_severity_from_features` to
`severity_scores`: appended only when strictly positive. -/
def featureSeverityScores (df : DiseaseFeatures) (disease : String) : List ℚ :=
  let fs := calculate_severity_from_features df disease
  if 0 < fs then [fs] else []

/-- The contribution of `_calculate_visual_severity` to `severity_scores`:
appended only when strictly positive. -/
def visualSeverityScores (vp : VisualPixels) (disease : String) : List ℚ :=
  let vs := calculate_visual_severity vp disease
  if 0 < vs then [vs] else []

/-- The pooled `severity_scores` list of `_assess_severity`, in source append
order: detector score, feature score, visual score. -/
def severityScores (env : Env) (df : DiseaseFeatures) (vp : VisualPixels)
    (disease : String) : List ℚ :=
  detectorSeverityScores env ++ featureSeverityScores df disease ++
    visualSeverityScores vp disease

/-- `_assess_severity`: decode failure yields severity 50.0; otherwise average
the available signals (default 50.0 when none), apply the disease-specific
multiplier, and clamp to [5, 100]; confidence is the literal 0.85. -/
def assess_severity (env : Env) (img : ImageSrc) (disease : String) :
    DiseaseAnalysisResult :=
  match img with
  | .undecodable => ⟨disease, 0, 50⟩
  | .decoded _ df vp =>
    let scores := severityScores env df vp disease
    let final : ℚ :=
      if scores = [] then 50
      else adjust_severity_by_disease (scores.sum / (scores.length : ℚ)) disease
    ⟨disease, 0.85, qmax 5 (qmin 100 final)⟩

/-- The soil-specific entry of the `fertilizer_db` table in
`_get_fertilizer_recommendations`: `name` and `dose`. -/
structure FertRec where
  name : String
  dose : String
deriving DecidableEq

/-- The per-crop inner dictionary of `fertilizer_db`, total over the three
soil keys it holds. -/
def fertilizer_db_soil (crop soil : String) : Option FertRec :=
  if crop = "rice" then
    if soil = "clay" then some ⟨"NPK 20-10-10 + Zinc", "120-150 kg/acre"⟩
    else if soil = "sandy" then some ⟨"NPK 15-15-15 + Organic matter", "100-130 kg/acre"⟩
    else if soil = "loamy" then some ⟨"NPK 20-10-10", "100-140 kg/acre"⟩
    else none
  else if crop = "wheat" then
    if soil = "clay" then some ⟨"Urea + DAP + Potash", "90-120 kg/acre"⟩
    else if soil = "sandy" then some ⟨"NPK 18-18-18 + Lime", "80-110 kg/acre"⟩
    else if soil = "loamy" then some ⟨"Urea + DAP", "80-120 kg/acre"⟩
    else none
  else if crop = "cotton" then
    if soil = "clay" then some ⟨"NPK 15-15-15 + Boron", "70-100 kg/acre"⟩
    else if soil = "sandy" then some ⟨"NPK 20-20-20 + Gypsum", "60-90 kg/acre"⟩
    else if soil = "loamy" then some ⟨"NPK 15-15-15", "60-100 kg/acre"⟩
    else none
  else if crop = "maize" then
    if soil = "clay" then some ⟨"NPK 28-14-14 + Magnesium", "130-180 kg/acre"⟩
    else if soil = "sandy" then some ⟨"NPK 25-10-10 + Organic compost", "120-160 kg/acre"⟩
    else if soil = "loamy" then some ⟨"NPK 28-14-14", "120-180 kg/acre"⟩
    else none
  else if crop = "tomato" then
    if soil = "clay" then some ⟨"NPK 10-20-20 + Calcium nitrate", "80-120 kg/acre"⟩
    else if soil = "sandy" then some ⟨"NPK 15-15-15 + Epsom salt", "70-100 kg/acre"⟩
    else if soil = "loamy" then some ⟨"NPK 10-20-20", "75-110 kg/acre"⟩
    else none
  else if crop = "potato" then
    if soil = "clay" then some ⟨"NPK 15-15-30 + Potassium sulfate", "100-140 kg/acre"⟩
    else if soil = "sandy" then some ⟨"NPK 20-10-20 + Compost", "90-130 kg/acre"⟩
    else if soil = "loamy" then some ⟨"NPK 15-15-30", "95-135 kg/acre"⟩
    else none
  else none

/-- The per-crop `fallbacks` table of `_get_fertilizer_recommendations`. -/
def fertilizer_fallbacks (crop : String) : FertRec :=
  if crop = "rice" then ⟨"NPK 20-10-10", "100-150 kg/acre"⟩
  else if crop = "wheat" then ⟨"Urea + DAP", "80-120 kg/acre"⟩
  else if crop = "cotton" then ⟨"NPK 15-15-15", "60-100 kg/acre"⟩
  else if crop = "maize" then ⟨"NPK 28-14-14", "120-180 kg/acre"⟩
  else if crop = "tomato" then ⟨"NPK 10-20-20", "75-110 kg/acre"⟩
  else if crop = "potato" then ⟨"NPK 15-15-30", "95-135 kg/acre"⟩
  else ⟨"Balanced NPK 14-14-14", "50-100 kg/acre"⟩

/-- `_get_fertilizer_recommendations`: look up the crop's soil table with the
lowercased soil key (default "loamy"), fall back to the crop's "loamy" entry,
then to the per-crop fallback table. -/
def get_fertilizer_recommendations (crop_type : String) (soil_type : Option String) :
    FertRec :=
  let c := crop_type.toLower
  let s := (soil_type.map String.toLower).getD "loamy"
  match fertilizer_db_soil c s with
  | some r => r
  | none =>
    match fertilizer_db_soil c "loamy" with
    | some r => r
    | none => fertilizer_fallbacks c

/-- `_get_recommendations` (stage 4): when the treatment engine is absent or
its call raises, the `except` branch returns the fixed fallback bundle;
otherwise take the first chemical treatment (if any) and the fertilizer
lookup. -/
def get_recommendations (env : Env) (crop_type disease : String)
    (soil_type : Option String) : RecommendationResult :=
  match env.treatment_engine with
  | none =>
    ⟨"Standard fertilizer", "50 kg/acre", "No treatment needed", "0"⟩
  | some plan =>
    let pest : String × String :=
      match plan.chemical_treatments with
      | [] => ("No pesticide needed", "0")
      | t :: _ => (t.product_name, t.application_rate)
    let fert := get_fertilizer_recommendations crop_type soil_type
    ⟨fert.name, fert.dose, pest.1, pest.2⟩

/-- The weather-derived part of `_get_irrigation_advice`. -/
def irrigationWeatherParts (w : WeatherData) : List String :=
  (if 35 < w.temperature then
    ["Increase irrigation frequency to 2-3 times per week due to extreme heat"]
  else if 30 < w.temperature then
    ["Increase irrigation frequency due to high temperatures"]
  else if w.temperature < 15 then
    ["Reduce irrigation frequency to prevent frost damage"]
  else []) ++
  (if 85 < w.humidity then
    ["Reduce irrigation and improve ventilation to prevent fungal diseases"]
  else if 80 < w.humidity then
    ["Monitor humidity levels and reduce overhead watering"]
  else []) ++
  (if 50 < w.rainfall then
    ["Reduce irrigation due to recent rainfall"]
  else if 100 < w.rainfall then
    ["Skip irrigation this week due to heavy rainfall"]
  else [])

/-- The disease-derived part of `_get_irrigation_advice` (only when the
disease string is non-empty and not "Healthy"). -/
def irrigationDiseaseParts (disease : String) (severity : ℚ) : List String :=
  if disease ≠ "" ∧ disease ≠ "Healthy" then
    (if 70 < severity then
      ["Use drip irrigation to maintain soil moisture without wetting leaves"]
    else if 40 < severity then
      ["Avoid overhead watering to prevent disease spread"]
    else
      ["Maintain consistent soil moisture to support plant recovery"]) ++
    (if disease = "Late Blight" ∨ disease = "Powdery Mildew" then
      ["Water early in the day to allow leaves to dry quickly"]
    else if disease = "Root Rot" then
      ["Reduce watering frequency and improve drainage"]
    else [])
  else []

/-- `_get_irrigation_advice`: join the collected parts with ". ", or the
standard-schedule default when none apply. -/
def get_irrigation_advice (weather_data : Option WeatherData) (disease : String)
    (severity : ℚ) : String :=
  let advice_parts :=
    (weather_data.map irrigationWeatherParts).getD [] ++
      irrigationDiseaseParts disease severity
  if advice_parts = [] then
    "Follow standard irrigation schedule for the crop (typically every 4-7 days)"
  else
    String.intercalate ". " advice_parts

/-- The `base_strategies` list of `_get_prevention_strategies`. -/
def basePreventionStrategies : List String :=
  ["Regular field monitoring and scouting (check plants 2-3 times per week)",
   "Proper field sanitation - remove and destroy infected plant debris",
   "Practice crop rotation with non-host plants for at least 2-3 years",
   "Use certified disease-resistant varieties when available",
   "Maintain balanced fertilization to keep plants healthy and stress-resistant",
   "Ensure proper plant spacing for adequate air circulation",
   "Avoid working in fields when plants are wet to prevent disease spread"]

/-- The `disease_strategies` table of `_get_prevention_strategies`. -/
def diseasePreventionStrategies (disease : String) : List String :=
  if disease = "Late Blight" then
    ["Avoid overhead irrigation - use drip irrigation instead",
     "Apply preventive fungicide sprays during humid weather",
     "Hill soil around potato plants to prevent tuber infection",
     "Destroy volunteer plants that may harbor the disease"]
  else if disease = "Early Blight" then
    ["Mulch around plants to prevent soil splash",
     "Stake or trellis plants to improve air circulation",
     "Apply copper-based fungicides preventively",
     "Avoid planting tomatoes near potatoes"]
  else if disease = "Powdery Mildew" then
    ["Improve air circulation by proper plant spacing",
     "Avoid overhead watering to keep leaves dry",
     "Apply sulfur-based fungicides as preventive measure",
     "Remove and destroy infected leaves immediately"]
  else if disease = "Bacterial Spot" then
    ["Use copper-based bactericides preventively",
     "Avoid handling wet plants to prevent spread",
     "Disinfect tools between plants and fields",
     "Plant disease-resistant varieties"]
  else if disease = "Fusarium Wilt" then
    ["Use soil sterilization methods before planting",
     "Avoid planting susceptible crops in infected soil",
     "Use grafted plants with resistant rootstocks",
     "Maintain soil pH between 6.0-7.0"]
  else []

/-- The severity-dependent extra strategies of `_get_prevention_strategies`. -/
def severityPreventionStrategies (severity : ℚ) : List String :=
  if 70 < severity then
    ["Implement strict quarantine measures for affected areas",
     "Increase monitoring frequency to daily inspections",
     "Consider professional agricultural consultation",
     "Isolate affected plants and destroy them if necessary",
     "Apply protective fungicides/bactericides immediately"]
  else if 40 < severity then
    ["Monitor neighboring fields for disease spread",
     "Prepare emergency treatment supplies",
     "Document disease progression with photos"]
  else []

/-- `_get_prevention_strategies`. -/
def get_prevention_strategies (disease : String) (severity : ℚ) : List String :=
  basePreventionStrategies ++ diseasePreventionStrategies disease ++
    severityPreventionStrategies severity

/-- The `stage_tips` table of `_get_growth_stage_tips` (lowercased key). -/
def growthStageTips (stage : String) : List String :=
  if stage = "seedling" then
    ["Ensure proper seed treatment",
     "Maintain optimal soil moisture",
     "Protect from early pest attacks"]
  else if stage = "vegetative" then
    ["Monitor for nutrient deficiencies",
     "Implement weed control measures",
     "Support proper plant spacing"]
  else if stage = "flowering" then
    ["Avoid stress during critical growth stages",
     "Ensure pollination if applicable",
     "Monitor for flower/fruit drop"]
  else if stage = "mature" then
    ["Prepare for harvest timing",
     "Monitor for late-season diseases",
     "Plan post-harvest activities"]
  else []

/-- `_get_growth_stage_tips`. -/
def get_growth_stage_tips (growth_stage : Option String) (disease : String) :
    List String :=
  let tips :=
    ((growth_stage.map fun gs => growthStageTips gs.toLower).getD []) ++
      (if disease ≠ "" ∧ disease ≠ "Healthy" then
        ["Take preventive measures against " ++ disease]
      else [])
  if tips = [] then
    ["Follow standard cultivation practices", "Regular monitoring of crop health"]
  else tips

/-- `_get_smart_recommendations` (stage 5): all three helpers are total, so
the source's `except` fallback is unreachable. -/
def get_smart_recommendations (disease : String) (severity : ℚ)
    (growth_stage : Option String) (weather_data : Option WeatherData) :
    SmartRecommendations :=
  ⟨get_irrigation_advice weather_data disease severity,
   get_prevention_strategies disease severity,
   get_growth_stage_tips growth_stage disease⟩

/-- `_predict_yield` (stage 6): the external yield predictor's answer, or the
`except` fallback (0.0, 0.0) when the service is absent or its call raises. -/
def predict_yield (env : Env) : YieldPredictionResult :=
  match env.yield_predictor with
  | none => ⟨0, 0⟩
  | some (y, c) => ⟨y, c⟩

/-- `_get_severity_color`: severity bracket to overlay color (BGR). -/
def get_severity_color (severity : ℚ) : ℕ × ℕ × ℕ :=
  if severity < 25 then (0, 255, 0)
  else if severity < 50 then (0, 255, 255)
  else if severity < 75 then (0, 165, 255)
  else (0, 0, 255)

/-- `_generate_visual_overlay` (stage 7): decode failure returns `None`;
otherwise the blended image is written under a time-stamped name and that
path is returned (the pixel blending itself is outside the claims,
only the returned reference is modelled). -/
def generate_visual_overlay (img : ImageSrc) (disease : String) (severity : ℚ)
    (now : String) : Option String :=
  match img with
  | .undecodable => none
  | .decoded _ _ _ => some ("temp/disease_overlay_" ++ now ++ ".jpg")

/-- The `confidence_scores` sub-dictionary of the report. -/
structure ConfidenceScores where
  crop_type : ℚ
  disease : ℚ
  yield_prediction : ℚ
deriving DecidableEq

/-- The `crop_analysis` dictionary assembled by
`_generate_comprehensive_report`. -/
structure CropAnalysis where
  crop_type : String
  disease : String
  disease_severity_percent : ℚ
  fertilizer_recommendation : String
  fertilizer_dose : String
  pesticide_recommendation : String
  pesticide_dose : String
  irrigation_advice : String
  prevention_strategies : List String
  growth_stage_tips : List String
  predicted_yield : ℚ
  confidence_scores : ConfidenceScores
  disease_overlay_image : Option String
deriving DecidableEq

/-- The optional `region_info` dictionary of the report. -/
structure RegionInfo where
  location : Option (ℚ × ℚ)
  weather_data : Option WeatherData
  soil_type : Option String
deriving DecidableEq

/-- `CropDoctorReport` dataclass. -/
structure CropDoctorReport where
  crop_analysis : CropAnalysis
  timestamp : String
  region_info : Option RegionInfo
deriving DecidableEq

/-- `_generate_comprehensive_report` (stage 8): pure assembly of all prior
stage outputs. -/
def generate_comprehensive_report (crop_result : CropAnalysisResult)
    (disease_result : DiseaseAnalysisResult) (severity_result : DiseaseAnalysisResult)
    (recommendation_result : RecommendationResult)
    (smart_recommendations : SmartRecommendations)
    (yield_result : YieldPredictionResult) (overlay_path : Option String)
    (input_data : CropDoctorInput) (now : String) : CropDoctorReport :=
  let region_info : Option RegionInfo :=
    if input_data.location.isSome ∨ input_data.weather_data.isSome then
      some ⟨input_data.location, input_data.weather_data, input_data.soil_type⟩
    else none
  { crop_analysis :=
      { crop_type := crop_result.crop_type,
        disease := disease_result.disease,
        disease_severity_percent := severity_result.severity_percent,
        fertilizer_recommendation := recommendation_result.fertilizer_recommendation,
        fertilizer_dose := recommendation_result.fertilizer_dose,
        pesticide_recommendation := recommendation_result.pesticide_recommendation,
        pesticide_dose := recommendation_result.pesticide_dose,
        irrigation_advice := smart_recommendations.irrigation_advice,
        prevention_strategies := smart_recommendations.prevention_strategies,
        growth_stage_tips := smart_recommendations.growth_stage_tips,
        predicted_yield := yield_result.predicted_yield,
        confidence_scores :=
          ⟨crop_result.confidence, disease_result.confidence, yield_result.confidence⟩,
        disease_overlay_image := overlay_path },
    timestamp := now,
    region_info := region_info }

/-- One row of the SQLite `analysis_cache` table. -/
structure CacheRow where
  id : ℕ
  image_hash : String
  crop_type : String
  disease : String
  severity : ℚ
  recommendations : String
  timestamp : String
deriving DecidableEq

/-- The `analysis_cache` table state: its rows and the next autoincrement id. -/
structure CacheState where
  rows : List CacheRow
  nextId : ℕ
deriving DecidableEq

/-- `INSERT OR REPLACE INTO analysis_cache`: the row conflicting on the UNIQUE
`image_hash` is deleted and a fresh row is inserted with a new autoincrement
id. -/
def upsertCache (c : CacheState) (h crop disease : String) (sev : ℚ)
    (recSummary ts : String) : CacheState :=
  { rows := c.rows.filter (fun r => r.image_hash != h) ++
      [⟨c.nextId, h, crop, disease, sev, recSummary, ts⟩],
    nextId := c.nextId + 1 }

/-- Rendering of a rational for the serialized payload. -/
def ratStr (q : ℚ) : String :=
  toString q.num ++ "/" ++ toString q.den

/-- Models `json.dumps(report.crop_analysis)`: a serialization fully
determined by the report fields. -/
def serializeAnalysis (a : CropAnalysis) : String :=
  String.intercalate "|"
    [a.crop_type, a.disease, ratStr a.disease_severity_percent,
     a.fertilizer_recommendation, a.fertilizer_dose,
     a.pesticide_recommendation, a.pesticide_dose, a.irrigation_advice,
     String.intercalate ";" a.prevention_strategies,
     String.intercalate ";" a.growth_stage_tips,
     ratStr a.predicted_yield, ratStr a.confidence_scores.crop_type,
     ratStr a.confidence_scores.disease,
     ratStr a.confidence_scores.yield_prediction,
     (a.disease_overlay_image.getD "")]

/-- `_cache_analysis_results`: hash the image bytes and upsert the summary
row keyed by that hash. -/
def cache_analysis_results (image_hash : String) (report : CropDoctorReport)
    (c : CacheState) : CacheState :=
  upsertCache c image_hash report.crop_analysis.crop_type
    report.crop_analysis.disease report.crop_analysis.disease_severity_percent
    (serializeAnalysis report.crop_analysis) report.timestamp

/-- `analyze_crop`: the eight ordered stages, threading each stage's output
into the later ones, then the cache upsert; `now` stands for the wall-clock
timestamp read during the run. -/
def analyze_crop (env : Env) (input_data : CropDoctorInput) (now : String)
    (cache : CacheState) : CropDoctorReport × CacheState :=
  let crop_result := identify_crop env input_data.image
  let disease_result := detect_disease env input_data.image crop_result.crop_type
  let severity_result := assess_severity env input_data.image disease_result.disease
  let recommendation_result :=
    get_recommendations env crop_result.crop_type disease_result.disease
      input_data.soil_type
  let smart_recommendations :=
    get_smart_recommendations disease_result.disease
      severity_result.severity_percent input_data.growth_stage
      input_data.weather_data
  let yield_result := predict_yield env
  let overlay_path :=
    generate_visual_overlay input_data.image disease_result.disease
      severity_result.severity_percent now
  let report :=
    generate_comprehensive_report crop_result disease_result severity_result
      recommendation_result smart_recommendations yield_result overlay_path
      input_data now
  (report, cache_analysis_results input_data.image_hash report cache)

/-- The `services` sub-dictionary of `get_health_status`. -/
structure ServicesStatus where
  crop_analysis : String
  disease_detection : String
  yield_prediction : String
  treatment_engine : String
  recommendation_service : String
deriving DecidableEq

/-- The dictionary returned by `get_health_status`. -/
structure HealthStatus where
  status : String
  services : ServicesStatus
  database : String
  models_loaded : ℕ
  timestamp : String
deriving DecidableEq

/-- `get_health_status`: a literal dictionary; only `models_loaded` and
`timestamp` depend on the state. -/
def get_health_status (env : Env) (now : String) : HealthStatus :=
  { status := "healthy",
    services :=
      { crop_analysis := "operational",
        disease_detection := "operational",
        yield_prediction := "operational",
        treatment_engine := "operational",
        recommendation_service := "operational" },
    database := "connected",
    models_loaded := env.models_loaded,
    timestamp := now }

theorem mem_insertCand {x y : String × ℚ} {l : List (String × ℚ)}
    (h : y ∈ insertCand x l) : y = x ∨ y ∈ l := by
  induction l with
  | nil =>
    simp only [insertCand, List.mem_singleton] at h
    exact Or.inl h
  | cons z zs ih =>
    by_cases hz : z.2 ≤ x.2
    · simp only [insertCand, if_pos hz, List.mem_cons] at h
      rcases h with h | h | h
      · exact Or.inl h
      · exact Or.inr (by simp [h])
      · exact Or.inr (by simp [h])
    · simp only [insertCand, if_neg hz, List.mem_cons] at h
      rcases h with h | h
      · exact Or.inr (by simp [h])
      · rcases ih h with h' | h'
        · exact Or.inl h'
        · exact Or.inr (by simp [h'])

theorem mem_sortCandsDesc {y : String × ℚ} {l : List (String × ℚ)}
    (h : y ∈ sortCandsDesc l) : y ∈ l := by
  induction l with
  | nil => simp [sortCandsDesc] at h
  | cons x xs ih =>
    rcases mem_insertCand (by simpa [sortCandsDesc] using h) with h' | h'
    · simp [h']
    · simp [ih h']

theorem insertCand_ne_nil (x : String × ℚ) (l : List (String × ℚ)) :
    insertCand x l ≠ [] := by
  cases l with
  | nil => simp [insertCand]
  | cons y ys => by_cases h : y.2 ≤ x.2 <;> simp [insertCand, h]

theorem sortCandsDesc_ne_nil {l : List (String × ℚ)} (h : l ≠ []) :
    sortCandsDesc l ≠ [] := by
  cases l with
  | nil => exact absurd rfl h
  | cons x xs =>
    simp only [sortCandsDesc]
    exact insertCand_ne_nil x _

theorem sortCandsDesc_cons_max {x : String × ℚ} {l : List (String × ℚ)}
    (h : ∀ y ∈ l, y.2 ≤ x.2) : sortCandsDesc (x :: l) = x :: sortCandsDesc l := by
  simp only [sortCandsDesc]
  cases hs : sortCandsDesc l with
  | nil => simp [insertCand]
  | cons z zs =>
    have hz : z ∈ l := mem_sortCandsDesc (by rw [hs]; exact List.mem_cons_self z zs)
    simp [insertCand, h z hz]

theorem adjust_severity_by_disease_mono (disease : String) {s t : ℚ} (h : s ≤ t) :
    adjust_severity_by_disease s disease ≤ adjust_severity_by_disease t disease := by
  simp only [adjust_severity_by_disease]
  split_ifs <;> exact mul_le_mul_of_nonneg_right h (by norm_num)

/-- Claim C4 (confirmed): the severity percentage returned by
`_assess_severity` lies in [5,100] on every execution path: the no-signal
default and the undecodable-image path both return 50, and every decoded path
ends in the clamp `max 5 (min 100 _)` (the source's `except` fallback also
returns the literal 50). -/
theorem C4_severity_bounds (env : Env) (img : ImageSrc) (disease : String) :
    5 ≤ (assess_severity env img disease).severity_percent ∧
      (assess_severity env img disease).severity_percent ≤ 100 := by
  cases img with
  | undecodable =>
    constructor <;> norm_num [assess_severity]
  | decoded cf df vp =>
    constructor
    · simp only [assess_severity]
      exact le_max_left 5 _
    · simp only [assess_severity]
      exact max_le (by norm_num) (min_le_left _ _)

/-- Claim C9 (confirmed): on every decoded image and every disease label the
severity stage returns the literal confidence 0.85, regardless of which
severity signals contributed; the `DiseaseAnalysisResult` record it returns
holds only the disease, confidence and severity fields, with no
contributing-signal count. -/
theorem C9_severity_confidence (env : Env) (cf : CropFeatures)
    (df : DiseaseFeatures) (vp : VisualPixels) (disease : String) :
    (assess_severity env (.decoded cf df vp) disease).confidence = 0.85 := rfl

/-- Claim C10 (confirmed): the visual-pixel-ratio signal of
`_calculate_visual_severity` is 0 for every disease label outside
{"Powdery Mildew", "Early Blight", "Late Blight", "Bacterial Spot"}
(in particular for "Healthy"), so its strictly-positive guard excludes it from
the pooled severity scores. -/
theorem C10_visual_severity_zero (vp : VisualPixels) (disease : String)
    (h1 : disease ≠ "Powdery Mildew") (h2 : disease ≠ "Early Blight")
    (h3 : disease ≠ "Late Blight") (h4 : disease ≠ "Bacterial Spot") :
    calculate_visual_severity vp disease = 0 ∧
      visualSeverityScores vp disease = [] := by
  have hv : calculate_visual_severity vp disease = 0 := by
    simp only [calculate_visual_severity, if_neg h1, if_neg h4]
    rw [if_neg (by simp [h2, h3])]
    norm_num [qmin]
  refine ⟨hv, ?_⟩
  simp [visualSeverityScores, hv]

theorem C10_visual_severity_zero_witness :
    calculate_visual_severity ⟨100, 7, 7, 7⟩ "Healthy" = 0 ∧
      visualSeverityScores ⟨100, 7, 7, 7⟩ "Healthy" = [] :=
  C10_visual_severity_zero ⟨100, 7, 7, 7⟩ "Healthy" (by decide) (by decide)
    (by decide) (by decide)

/-- Concrete environment with only the model-based disease detector available
(level "moderate", hence one severity signal of 50). -/
def envDetOnly : Env :=
  { crop_analyzer := none,
    disease_detector := some ⟨"Late Blight", 0.9, "moderate"⟩,
    yield_predictor := none, treatment_engine := none,
    recommendation_service := none, models_loaded := 0 }

/-- Crop features matching none of the color or shape heuristics. -/
def cf0 : CropFeatures := ⟨0, 0, 0, 1000, 0.01⟩

/-- Disease features matching none of the disease heuristics and yielding a
zero feature-severity score. -/
def df0 : DiseaseFeatures := ⟨0, 0, 0, 0, 0, 0, 0, 1⟩

/-- Pixel counts with no disease-indicating pixels. -/
def vp0 : VisualPixels := ⟨100, 0, 0, 0⟩

/-- Claim C3 counterexample: with the disease label "Healthy" and one
available severity signal (detector level "moderate"), the multiplier 0 zeroes
the average but the final clamp `max 5 (min 100 0)` returns 5, not 0. -/
theorem C3_counterexample :
    (assess_severity envDetOnly (.decoded cf0 df0 vp0) "Healthy").severity_percent = 5 ∧
      (5 : ℚ) ≠ 0 := by
  constructor
  · simp [assess_severity, severityScores, detectorSeverityScores,
      featureSeverityScores, visualSeverityScores, calculate_severity_from_features,
      calculate_visual_severity, severityLevelScore, adjust_severity_by_disease,
      envDetOnly, cf0, df0, vp0, Option.toList]
    all_goals norm_num [qmin, qmax]
  · norm_num

/-- Claim C3 (corrected): when the disease label is "Healthy" and at least one
severity signal exists, the disease multiplier 0 makes the pre-clamp severity
0 regardless of the other inputs, and the severity returned by
`_assess_severity` is the clamp floor 5 (not 0). -/
theorem C3_amended (env : Env) (cf : CropFeatures) (df : DiseaseFeatures)
    (vp : VisualPixels) (h : severityScores env df vp "Healthy" ≠ []) :
    (assess_severity env (.decoded cf df vp) "Healthy").severity_percent = 5 := by
  have hadj : ∀ s : ℚ, adjust_severity_by_disease s "Healthy" = s * 0 :=
    fun _ => rfl
  simp only [assess_severity, if_neg h, hadj, mul_zero]
  norm_num [qmax, qmin]

theorem C3_amended_witness :
    (assess_severity envDetOnly (.decoded cf0 df0 vp0) "Healthy").severity_percent = 5 :=
  C3_amended envDetOnly cf0 df0 vp0
    (by simp [severityScores, detectorSeverityScores, envDetOnly, Option.toList])

/-- Concrete environment whose only crop candidate is the analyzer's
("Rice", 0.1) and whose only disease candidate is the detector's
("Late Blight", 0.25): both pools are non-empty with every confidence below
the stage floor. -/
def envLow : Env :=
  { crop_analyzer := some ("Rice", 0.1),
    disease_detector := some ⟨"Late Blight", 0.25, "moderate"⟩,
    yield_predictor := none, treatment_engine := none,
    recommendation_service := none, models_loaded := 0 }

/-- Claim C2 counterexample: at the crop stage, a non-empty pool whose maximum
confidence (0.1) is below the 0.2 floor yields the fallback label "Unknown"
with confidence 0 — below the floor and different from max(0.1, 0.8) — so the
claimed confidence raise does not happen at the crop stage. -/
theorem C2_counterexample :
    identify_crop envLow (.decoded cf0 df0 vp0) = ⟨"Unknown", 0⟩ ∧
      ¬ ((0.2 : ℚ) ≤ (identify_crop envLow (.decoded cf0 df0 vp0)).confidence) ∧
      (identify_crop envLow (.decoded cf0 df0 vp0)).confidence ≠ qmax 0.1 0.8 := by
  have hc : identify_crop envLow (.decoded cf0 df0 vp0) = ⟨"Unknown", 0⟩ := by
    have hpool : cropCandidates envLow cf0 = [("Rice", 0.1)] := by
      simp [cropCandidates, identify_crop_by_color, identify_crop_by_shape,
        envLow, cf0, Option.toList]
      norm_num
    rw [identify_crop, hpool]
    norm_num [sortCandsDesc, insertCand]
  refine ⟨hc, ?_, ?_⟩
  · rw [hc]
    norm_num
  · rw [hc]
    norm_num [qmax]

/-- Claim C2 (corrected): when a stage's non-empty pool has every confidence
below the stage floor, the disease stage returns ("Healthy", 0.8) — the
fallback label with confidence max(primary, 0.8) ≥ the floor — but the crop
stage returns ("Unknown", 0.0): its fallback confidence is hard-set to 0,
below the documented floor, with no raise. -/
theorem C2_amended (env : Env) (cf : CropFeatures) (df : DiseaseFeatures)
    (vp : VisualPixels) (crop_type : String) :
    (cropCandidates env cf ≠ [] →
      (∀ c ∈ cropCandidates env cf, c.2 < 0.2) →
      identify_crop env (.decoded cf df vp) = ⟨"Unknown", 0⟩) ∧
    (diseaseCandidates env df crop_type ≠ [] →
      (∀ c ∈ diseaseCandidates env df crop_type, c.2 < 0.3) →
      detect_disease env (.decoded cf df vp) crop_type = ⟨"Healthy", 0.8, 0⟩) := by
  constructor
  · intro hne hall
    cases hs : sortCandsDesc (cropCandidates env cf) with
    | nil => simp [identify_crop, hs]
    | cons b rest =>
      have hb : b ∈ cropCandidates env cf :=
        mem_sortCandsDesc (by rw [hs]; exact List.mem_cons_self b rest)
      have hlt : b.2 < 0.2 := hall b hb
      simp [identify_crop, hs, hlt]
  · intro hne hall
    cases hs : sortCandsDesc (diseaseCandidates env df crop_type) with
    | nil => exact absurd hs (sortCandsDesc_ne_nil hne)
    | cons b rest =>
      have hb : b ∈ diseaseCandidates env df crop_type :=
        mem_sortCandsDesc (by rw [hs]; exact List.mem_cons_self b rest)
      have hlt : b.2 < 0.3 := hall b hb
      have hmax : qmax b.2 0.8 = 0.8 := by
        rw [qmax, if_pos (le_of_lt (lt_trans hlt (by norm_num)))]
      simp [detect_disease, hs, hlt, hmax]

theorem C2_amended_witness :
    identify_crop envLow (.decoded cf0 df0 vp0) = ⟨"Unknown", 0⟩ ∧
      detect_disease envLow (.decoded cf0 df0 vp0) "Rice" = ⟨"Healthy", 0.8, 0⟩ := by
  have h := C2_amended envLow cf0 df0 vp0 "Rice"
  have hcrop : cropCandidates envLow cf0 = [("Rice", 0.1)] := by
    simp [cropCandidates, identify_crop_by_color, identify_crop_by_shape,
      envLow, cf0, Option.toList]
    norm_num
  have hdis : diseaseCandidates envLow df0 "Rice" = [("Late Blight", 0.25)] := by
    simp [diseaseCandidates, identify_disease_by_features,
      identify_disease_by_visual_analysis, envLow, df0, Option.toList]
    all_goals norm_num [Option.toList]
  refine ⟨h.1 ?_ ?_, h.2 ?_ ?_⟩
  · rw [hcrop]; simp
  · rw [hcrop]; intro c hc; simp at hc; rw [hc]; norm_num
  · rw [hdis]; simp
  · rw [hdis]; intro c hc; simp at hc; rw [hc]; norm_num

/-- Concrete tie at the crop stage: the color heuristic produces
("Rice", 0.7) and the model-based crop analyzer produces ("Maize", 0.7). -/
def envTie : Env :=
  { crop_analyzer := some ("Maize", 0.7), disease_detector := none,
    yield_predictor := none, treatment_engine := none,
    recommendation_service := none, models_loaded := 0 }

/-- Crop features firing the color heuristic's Rice rule (hue 40,
saturation 150) and no shape rule. -/
def cfRice : CropFeatures := ⟨40, 150, 0, 1000, 0.01⟩

/-- Claim C6 counterexample: with the color-heuristic candidate ("Rice", 0.7)
tied with the model-based candidate ("Maize", 0.7), the crop stage picks
"Rice" — the feature heuristic, inserted first — not the model-based
candidate, contradicting the claimed model-first priority at the
crop-identification stage. -/
theorem C6_counterexample :
    identify_crop envTie (.decoded cfRice df0 vp0) = ⟨"Rice", 0.7⟩ ∧
      envTie.crop_analyzer = some ("Maize", 0.7) ∧
      (identify_crop envTie (.decoded cfRice df0 vp0)).crop_type ≠ "Maize" := by
  have hpool : cropCandidates envTie cfRice = [("Rice", 0.7), ("Maize", 0.7)] := by
    simp [cropCandidates, identify_crop_by_color, identify_crop_by_shape,
      envTie, cfRice, Option.toList]
    norm_num
  have hc : identify_crop envTie (.decoded cfRice df0 vp0) = ⟨"Rice", 0.7⟩ := by
    rw [identify_crop, hpool]
    norm_num [sortCandsDesc, insertCand]
  refine ⟨hc, rfl, ?_⟩
  rw [hc]
  simp

/-- Claim C6 (corrected): ties are broken by the stable sort in candidate
insertion order. At the disease stage the insertion order is model-based >
feature-heuristic > visual-heuristic, so a model candidate whose confidence
meets or exceeds every pooled confidence (and the 0.3 floor) is the primary.
At the crop stage the insertion order is color-heuristic > shape-heuristic >
model-based, so under a tie the color heuristic — not the model — wins:
a color candidate whose confidence meets or exceeds every pooled confidence
(and the 0.2 floor) is the primary. -/
theorem C6_amended (env : Env) (cf : CropFeatures) (df : DiseaseFeatures)
    (vp : VisualPixels) (crop_type : String) (d : DetectorDiagnosis)
    (c : String × ℚ) :
    (env.disease_detector = some d → (0.3 : ℚ) ≤ d.confidence →
      (∀ x ∈ diseaseCandidates env df crop_type, x.2 ≤ d.confidence) →
      detect_disease env (.decoded cf df vp) crop_type =
        ⟨d.primary_disease, d.confidence, 0⟩) ∧
    (identify_crop_by_color cf = some c → (0.2 : ℚ) ≤ c.2 →
      (∀ x ∈ cropCandidates env cf, x.2 ≤ c.2) →
      identify_crop env (.decoded cf df vp) = ⟨c.1, c.2⟩) := by
  constructor
  · intro hdet hfloor hall
    have hpool : diseaseCandidates env df crop_type =
        (d.primary_disease, d.confidence) ::
          ((identify_disease_by_features df crop_type).toList ++
            (identify_disease_by_visual_analysis df crop_type).toList) := by
      simp [diseaseCandidates, hdet, Option.toList]
    have hrest : ∀ y ∈ (identify_disease_by_features df crop_type).toList ++
        (identify_disease_by_visual_analysis df crop_type).toList,
        y.2 ≤ (d.primary_disease, d.confidence).2 := by
      intro y hy
      exact hall y (by rw [hpool]; exact List.mem_cons_of_mem _ hy)
    have hsorted : sortCandsDesc (diseaseCandidates env df crop_type) =
        (d.primary_disease, d.confidence) ::
          sortCandsDesc ((identify_disease_by_features df crop_type).toList ++
            (identify_disease_by_visual_analysis df crop_type).toList) := by
      rw [hpool]
      exact sortCandsDesc_cons_max hrest
    rw [detect_disease, hsorted]
    simp [not_lt.mpr hfloor]
  · intro hcolor hfloor hall
    have hpool : cropCandidates env cf =
        c :: ((identify_crop_by_shape cf).toList ++ env.crop_analyzer.toList) := by
      simp [cropCandidates, hcolor, Option.toList]
    have hrest : ∀ y ∈ (identify_crop_by_shape cf).toList ++
        env.crop_analyzer.toList, y.2 ≤ c.2 := by
      intro y hy
      exact hall y (by rw [hpool]; exact List.mem_cons_of_mem _ hy)
    have hsorted : sortCandsDesc (cropCandidates env cf) =
        c :: sortCandsDesc ((identify_crop_by_shape cf).toList ++
          env.crop_analyzer.toList) := by
      rw [hpool]
      exact sortCandsDesc_cons_max hrest
    rw [identify_crop, hsorted]
    simp [not_lt.mpr hfloor]

/-- Concrete environment for the tie-priority witness: a dominant model-based
disease candidate and a dominant color-heuristic crop candidate. -/
def envTieW : Env :=
  { crop_analyzer := some ("Maize", 0.5),
    disease_detector := some ⟨"Late Blight", 0.9, "moderate"⟩,
    yield_predictor := none, treatment_engine := none,
    recommendation_service := none, models_loaded := 0 }

theorem C6_amended_witness :
    detect_disease envTieW (.decoded cfRice df0 vp0) "Rice" =
        ⟨"Late Blight", 0.9, 0⟩ ∧
      identify_crop envTieW (.decoded cfRice df0 vp0) = ⟨"Rice", 0.7⟩ := by
  have h := C6_amended envTieW cfRice df0 vp0 "Rice"
    ⟨"Late Blight", 0.9, "moderate"⟩ ("Rice", 0.7)
  have hdis : diseaseCandidates envTieW df0 "Rice" = [("Late Blight", 0.9)] := by
    simp [diseaseCandidates, identify_disease_by_features,
      identify_disease_by_visual_analysis, envTieW, df0, Option.toList]
    all_goals norm_num [Option.toList]
  have hcrop : cropCandidates envTieW cfRice = [("Rice", 0.7), ("Maize", 0.5)] := by
    simp [cropCandidates, identify_crop_by_color, identify_crop_by_shape,
      envTieW, cfRice, Option.toList]
    norm_num
  refine ⟨h.1 rfl (by norm_num) ?_, h.2 ?_ (by norm_num) ?_⟩
  · rw [hdis]; intro x hx; simp at hx; simp [hx]
  · simp [identify_crop_by_color, cfRice]
    all_goals norm_num
  · rw [hcrop]
    intro x hx
    simp at hx
    rcases hx with hx | hx
    all_goals rw [hx]
    all_goals norm_num

/-- The severity stage on a decoded image, written out: average of the pooled
signals (default 50 when none), disease multiplier, clamp. -/
theorem assess_severity_decoded (env : Env) (cf : CropFeatures)
    (df : DiseaseFeatures) (vp : VisualPixels) (disease : String) :
    (assess_severity env (.decoded cf df vp) disease).severity_percent =
      qmax 5 (qmin 100 (if severityScores env df vp disease = [] then 50
        else adjust_severity_by_disease ((severityScores env df vp disease).sum /
          ((severityScores env df vp disease).length : ℚ)) disease)) := rfl

theorem calculate_severity_mono (df1 df2 : DiseaseFeatures) (disease : String)
    (harea : df2.total_affected_area ≤ df1.total_affected_area)
    (hns : df2.num_spots = df1.num_spots)
    (htc : df2.texture_contrast = df1.texture_contrast) :
    calculate_severity_from_features df2 disease ≤
      calculate_severity_from_features df1 disease := by
  simp only [calculate_severity_from_features, hns, htc]
  have h1 : qmin 100 (df2.total_affected_area / 10000 * 100) ≤
      qmin 100 (df1.total_affected_area / 10000 * 100) := by
    rw [qmin_eq, qmin_eq]
    refine min_le_min le_rfl ?_
    have h2 : df2.total_affected_area / 10000 ≤ df1.total_affected_area / 10000 := by
      linarith
    linarith
  linarith

/-- Environment whose only stable severity signal is the detector's
"epidemic" level (95). -/
def envEpidemic : Env :=
  { crop_analyzer := none,
    disease_detector := some ⟨"Early Blight", 0.5, "epidemic"⟩,
    yield_predictor := none, treatment_engine := none,
    recommendation_service := none, models_loaded := 0 }

/-- Disease features with a given affected area and every other signal zero. -/
def dfArea (a : ℚ) : DiseaseFeatures := ⟨0, 0, a, 0, 0, 0, 0, 1⟩

/-- Claim C5 counterexample: with the detector reporting "epidemic" (95) and
all other inputs fixed, decreasing the affected area from 100 to 0 drops the
feature signal from 0.5 to 0; the zero signal is excluded from the average,
whose value then jumps from (95 + 0.5)/2 = 47.75 to 95 — decreasing the
affected-area ratio increased the final severity. -/
theorem C5_counterexample :
    (dfArea 0).total_affected_area < (dfArea 100).total_affected_area ∧
      (assess_severity envEpidemic (.decoded cf0 (dfArea 100) vp0)
          "Early Blight").severity_percent <
        (assess_severity envEpidemic (.decoded cf0 (dfArea 0) vp0)
          "Early Blight").severity_percent := by
  constructor
  · norm_num [dfArea]
  · simp [assess_severity, severityScores, detectorSeverityScores,
      featureSeverityScores, visualSeverityScores, calculate_severity_from_features,
      calculate_visual_severity, severityLevelScore, adjust_severity_by_disease,
      envEpidemic, dfArea, vp0, Option.toList]
    all_goals norm_num [qmin, qmax]

/-- Claim C5 (corrected): the severity estimator is monotone in the
affected-area ratio only while the feature-based signal stays in the pool:
with all other features fixed and the smaller-area feature severity still
strictly positive, decreasing the affected area never increases the result.
When the decrease pushes the feature severity to 0 the signal is dropped from
the average, which can increase the final severity (see the counterexample). -/
theorem C5_amended (env : Env) (cf : CropFeatures) (vp : VisualPixels)
    (disease : String) (df1 df2 : DiseaseFeatures)
    (harea : df2.total_affected_area ≤ df1.total_affected_area)
    (hns : df2.num_spots = df1.num_spots)
    (htc : df2.texture_contrast = df1.texture_contrast)
    (hpos : 0 < calculate_severity_from_features df2 disease) :
    (assess_severity env (.decoded cf df2 vp) disease).severity_percent ≤
      (assess_severity env (.decoded cf df1 vp) disease).severity_percent := by
  have hfs : calculate_severity_from_features df2 disease ≤
      calculate_severity_from_features df1 disease :=
    calculate_severity_mono df1 df2 disease harea hns htc
  have hpos1 : 0 < calculate_severity_from_features df1 disease :=
    lt_of_lt_of_le hpos hfs
  have hsc2 : severityScores env df2 vp disease =
      detectorSeverityScores env ++ [calculate_severity_from_features df2 disease] ++
        visualSeverityScores vp disease := by
    simp only [severityScores, featureSeverityScores]
    rw [if_pos hpos]
  have hsc1 : severityScores env df1 vp disease =
      detectorSeverityScores env ++ [calculate_severity_from_features df1 disease] ++
        visualSeverityScores vp disease := by
    simp only [severityScores, featureSeverityScores]
    rw [if_pos hpos1]
  have hne2 : severityScores env df2 vp disease ≠ [] := by
    rw [hsc2]; simp
  have hne1 : severityScores env df1 vp disease ≠ [] := by
    rw [hsc1]; simp
  have hlen : (severityScores env df1 vp disease).length =
      (severityScores env df2 vp disease).length := by
    rw [hsc1, hsc2]; simp
  have hsum : (severityScores env df2 vp disease).sum ≤
      (severityScores env df1 vp disease).sum := by
    rw [hsc1, hsc2]
    simp only [List.sum_append, List.sum_cons, List.sum_nil]
    linarith
  have hlenpos : (0 : ℚ) < ((severityScores env df2 vp disease).length : ℚ) := by
    have h0 : 0 < (severityScores env df2 vp disease).length :=
      List.length_pos.mpr hne2
    exact_mod_cast h0
  have havg : (severityScores env df2 vp disease).sum /
      ((severityScores env df2 vp disease).length : ℚ) ≤
      (severityScores env df1 vp disease).sum /
        ((severityScores env df1 vp disease).length : ℚ) := by
    rw [hlen, div_eq_mul_inv, div_eq_mul_inv]
    exact mul_le_mul_of_nonneg_right hsum (inv_nonneg.mpr (le_of_lt hlenpos))
  have hadj := adjust_severity_by_disease_mono disease havg
  rw [assess_severity_decoded, assess_severity_decoded, if_neg hne2, if_neg hne1,
    qmax_eq, qmax_eq, qmin_eq, qmin_eq]
  exact max_le_max le_rfl (min_le_min le_rfl hadj)

theorem C5_amended_witness :
    (assess_severity envEpidemic (.decoded cf0 (dfArea 100) vp0)
        "Early Blight").severity_percent ≤
      (assess_severity envEpidemic (.decoded cf0 (dfArea 200) vp0)
        "Early Blight").severity_percent :=
  C5_amended envEpidemic cf0 vp0 "Early Blight" (dfArea 200) (dfArea 100)
    (by norm_num [dfArea]) rfl rfl
    (by norm_num [calculate_severity_from_features, dfArea, qmin])

/-- The observable content of a cache row: every column except the
autoincrement id. -/
def rowObservable (r : CacheRow) : String × String × String × ℚ × String × String :=
  (r.image_hash, r.crop_type, r.disease, r.severity, r.recommendations, r.timestamp)

theorem filter_ne_filter_eq_nil (h : String) (l : List CacheRow) :
    (l.filter (fun r => r.image_hash != h)).filter (fun r => r.image_hash == h) = [] := by
  induction l with
  | nil => rfl
  | cons r rs ih =>
    by_cases hr : r.image_hash = h <;> simp [List.filter_cons, hr, ih]

theorem filter_ne_idem (h : String) (l : List CacheRow) :
    (l.filter (fun r => r.image_hash != h)).filter (fun r => r.image_hash != h) =
      l.filter (fun r => r.image_hash != h) := by
  induction l with
  | nil => rfl
  | cons r rs ih =>
    by_cases hr : r.image_hash = h <;> simp [List.filter_cons, hr, ih]

/-- Claim C7 (confirmed): the cache upsert fully replaces the single row keyed
by the hash — after an upsert, the rows matching the hash are exactly one row
carrying the given payload — and repeating it with the identical hash and
payload leaves the observable row set (all columns except the autoincrement
id, which the spec's CacheEntry does not expose) unchanged. -/
theorem C7_upsert_idempotent (c : CacheState) (h crop disease : String)
    (sev : ℚ) (recSummary ts : String) :
    ((upsertCache (upsertCache c h crop disease sev recSummary ts) h crop disease
        sev recSummary ts).rows.map rowObservable =
      (upsertCache c h crop disease sev recSummary ts).rows.map rowObservable) ∧
    (upsertCache c h crop disease sev recSummary ts).rows.filter
        (fun r => r.image_hash == h) =
      [⟨c.nextId, h, crop, disease, sev, recSummary, ts⟩] := by
  constructor
  · simp only [upsertCache, List.filter_append]
    rw [filter_ne_idem]
    have hsingle : (([⟨c.nextId, h, crop, disease, sev, recSummary, ts⟩] :
        List CacheRow).filter (fun r => r.image_hash != h)) = [] := by
      simp
    rw [hsingle]
    simp [rowObservable]
  · simp only [upsertCache, List.filter_append]
    rw [filter_ne_filter_eq_nil]
    simp

/-- Claim C8 (confirmed): `get_health_status` reports status "healthy" and all
five service families "operational" for every system state, including states
where any of the service attributes is `none` after a failed initialization. -/
theorem C8_health_constant (env : Env) (now : String) :
    (get_health_status env now).status = "healthy" ∧
      (get_health_status env now).services.crop_analysis = "operational" ∧
      (get_health_status env now).services.disease_detection = "operational" ∧
      (get_health_status env now).services.yield_prediction = "operational" ∧
      (get_health_status env now).services.treatment_engine = "operational" ∧
      (get_health_status env now).services.recommendation_service = "operational" :=
  ⟨rfl, rfl, rfl, rfl, rfl, rfl⟩

theorem upsertCache_filter_ne_nil (c : CacheState) (h crop disease : String)
    (sev : ℚ) (recSummary ts : String) :
    (upsertCache c h crop disease sev recSummary ts).rows.filter
      (fun r => r.image_hash == h) ≠ [] := by
  simp only [upsertCache, List.filter_append]
  intro heq
  rcases List.append_eq_nil.mp heq with ⟨h1, h2⟩
  simp at h2

/-- The environment with every collaborator unavailable. -/
def env0 : Env := ⟨none, none, none, none, none, 0⟩

/-- A request whose image cannot be decoded. -/
def inp0 : CropDoctorInput := ⟨.undecodable, "d41d8cd98f", none, none, none, none, none⟩

/-- An empty cache. -/
def cache0 : CacheState := ⟨[], 1⟩

/-- Claim C1 counterexample: an undecodable image does not abort the request:
`analyze_crop` still produces a complete report (crop "Unknown", disease
"Unknown", severity 50) and writes one cache row, contradicting both "no
report is produced" and "no cache row is written". -/
theorem C1_counterexample :
    (analyze_crop env0 inp0 "20240101_000000" cache0).2.rows.length = 1 ∧
      (analyze_crop env0 inp0 "20240101_000000" cache0).1.crop_analysis.crop_type =
        "Unknown" ∧
      (analyze_crop env0 inp0 "20240101_000000" cache0).1.crop_analysis.disease =
        "Unknown" ∧
      (analyze_crop env0 inp0 "20240101_000000"
          cache0).1.crop_analysis.disease_severity_percent = 50 :=
  ⟨rfl, rfl, rfl, rfl⟩

/-- Claim C1 (corrected): there is no Undecodable-Image hard failure. For
every environment, request context and cache state, an undecodable image
yields a complete fallback report — crop "Unknown" (the `_identify_crop`
decode default), disease "Unknown", severity 50, no overlay reference — and a
cache row keyed by the image hash is still written. (For decodable images the
pipeline likewise always yields a report, every stage being total with
documented fallbacks.) -/
theorem C1_amended (env : Env) (hash : String) (soil : Option String)
    (weather : Option WeatherData) (growth : Option String)
    (history : Option (List ℚ)) (loc : Option (ℚ × ℚ)) (now : String)
    (cache : CacheState) :
    ((analyze_crop env ⟨.undecodable, hash, soil, weather, growth, history, loc⟩
        now cache).1.crop_analysis.crop_type = "Unknown" ∧
      (analyze_crop env ⟨.undecodable, hash, soil, weather, growth, history, loc⟩
        now cache).1.crop_analysis.disease = "Unknown" ∧
      (analyze_crop env ⟨.undecodable, hash, soil, weather, growth, history, loc⟩
        now cache).1.crop_analysis.disease_severity_percent = 50 ∧
      (analyze_crop env ⟨.undecodable, hash, soil, weather, growth, history, loc⟩
        now cache).1.crop_analysis.disease_overlay_image = none) ∧
    (analyze_crop env ⟨.undecodable, hash, soil, weather, growth, history, loc⟩
        now cache).2.rows.filter (fun r => r.image_hash == hash) ≠ [] := by
  refine ⟨⟨rfl, rfl, rfl, rfl⟩, ?_⟩
  exact upsertCache_filter_ne_nil cache hash _ _ _ _ _
